import Mathlib

/-!
Shallow embedding of `src/app.py` (Taiwan 2024–2029 interactive projection app).

Numbers are modelled by exact rationals `ℚ`; the only floating-point behaviour
that matters to the claims is division by zero, which is modelled by the
IEEE-style value type `FloatVal` (finite value, ±infinity, NaN), matching the
numpy/pandas semantics of elementwise division for finite operands.
pandas `.round(d)` rounds half to even; it is embedded as `roundTo`.
-/

namespace FutureTaiwan

/-- app.py line 13: Taiwan natural-path GDP CAGR. -/
def TW_GDP_CAGR_BASE : ℚ := 0.03642405889760747

/-- app.py line 14: Taiwan natural-path FDI CAGR. -/
def TW_FDI_CAGR_BASE : ℚ := 0.022877126440026485

/-- app.py line 15: Taiwan natural-path housing CAGR. -/
def TW_HOUSE_CAGR_BASE : ℚ := 0.0409105229702702

/-- app.py line 18: China-model GDP CAGR. -/
def TW_GDP_CAGR_CHINA : ℚ := 0.010086986828831218

/-- app.py line 19: China-model FDI CAGR. -/
def TW_FDI_CAGR_CHINA : ℚ := 0.011270998331796981

/-- app.py line 20: China-model housing CAGR. -/
def TW_HOUSE_CAGR_CHINA : ℚ := 0.007923277505180824

/-- app.py line 23: Taiwan 2024 GDP base value (USD). -/
def BASE_GDP_2024 : ℚ := 796904000000

/-- app.py line 24: Taiwan 2024 FDI base value (USD). -/
def BASE_FDI_2024 : ℚ := 7858117000

/-- app.py line 26. -/
def BASE_YEAR : ℕ := 2024

/-- app.py line 27. -/
def END_YEAR : ℕ := 2029

/-- An IEEE-style numeric value: a finite rational, an infinity, or NaN.
Used for the columns that can be produced by a division. -/
inductive FloatVal where
| real (q : ℚ)
| posInf
| negInf
| nan
deriving DecidableEq, Repr

/-- numpy/pandas elementwise division for finite operands: a finite quotient
when the divisor is nonzero, ±infinity for `x / 0` with `x ≠ 0`, NaN for `0 / 0`. -/
def fdiv (x y : ℚ) : FloatVal :=
if y ≠ 0 then FloatVal.real (x / y)
else if 0 < x then FloatVal.posInf
else if x < 0 then FloatVal.negInf
else FloatVal.nan

/-- Floor of a rational, written on the numerator/denominator representation so
that it evaluates inside the kernel. -/
def qfloor (x : ℚ) : ℤ := x.num / (x.den : ℤ)

/-- Round to the nearest integer, ties to even (numpy/pandas rounding mode). -/
def roundHalfEven (x : ℚ) : ℤ :=
if x - (qfloor x : ℚ) < 1 / 2 then qfloor x
else if 1 / 2 < x - (qfloor x : ℚ) then qfloor x + 1
else if qfloor x % 2 = 0 then qfloor x else qfloor x + 1

/-- pandas `Series.round(d)`: round to `d` decimal places, ties to even. -/
def roundTo (d : ℕ) (x : ℚ) : ℚ := (roundHalfEven (x * 10 ^ d) : ℚ) / 10 ^ d

/-- pandas `Series.round(d)` on a possibly non-finite value: infinities and
NaN are left unchanged by numpy rounding. -/
def roundFV (d : ℕ) : FloatVal → FloatVal
| FloatVal.real q => FloatVal.real (roundTo d q)
| v => v

/-- app.py lines 34–36: `project(base_value, cagr, years)` — compound growth
`base_value * (1 + cagr) ** years`.  The function body has no validation of
`cagr` whatsoever. -/
def project (base_value cagr : ℚ) (years : ℕ) : ℚ :=
base_value * (1 + cagr) ^ years

/-- Embedding of `np.arange(BASE_YEAR, END_YEAR + 1)` (app.py lines 41 and 68). -/
def yearsList : List ℕ :=
(List.range (END_YEAR + 1 - BASE_YEAR)).map (fun i => BASE_YEAR + i)

/-- One row of the macro dataframe built by `build_macro` (app.py lines 49–61):
year, the four projected USD columns, and the four rescaled
ten-million-USD columns added afterwards. -/
structure MacroRow where
  year : ℕ
  gdp_nat_usd : ℚ
  gdp_china_usd : ℚ
  fdi_nat_usd : ℚ
  fdi_china_usd : ℚ
  gdp_nat_tenM : ℚ
  gdp_china_tenM : ℚ
  fdi_nat_tenM : ℚ
  fdi_china_tenM : ℚ
deriving DecidableEq, Repr

/-- app.py lines 39–63: `build_macro()` — projects GDP/FDI under both
scenarios for 2024–2029 and adds the columns rescaled by 1/10,000,000. -/
def build_macro : List MacroRow :=
yearsList.map (fun y =>
  let t := y - BASE_YEAR
  let g_nat := project BASE_GDP_2024 TW_GDP_CAGR_BASE t
  let g_china := project BASE_GDP_2024 TW_GDP_CAGR_CHINA t
  let f_nat := project BASE_FDI_2024 TW_FDI_CAGR_BASE t
  let f_china := project BASE_FDI_2024 TW_FDI_CAGR_CHINA t
  { year := y
    gdp_nat_usd := g_nat
    gdp_china_usd := g_china
    fdi_nat_usd := f_nat
    fdi_china_usd := f_china
    gdp_nat_tenM := g_nat / 10000000
    gdp_china_tenM := g_china / 10000000
    fdi_nat_tenM := f_nat / 10000000
    fdi_china_tenM := f_china / 10000000 })

/-- One row of the personal dataframe built by `build_personal`
(app.py lines 76–94): year, the four projected NTD columns and the two
affordability-ratio columns.  Affordability is the result of a division and
so can be non-finite; the other columns are finite for finite inputs. -/
structure PersonalRow where
  year : ℕ
  income_nat : ℚ
  income_china : ℚ
  house_nat : ℚ
  house_china : ℚ
  afford_nat : FloatVal
  afford_china : FloatVal
deriving DecidableEq, Repr

/-- The state of `build_personal`'s dataframe row after app.py line 86:
the projected values are still unrounded, and the affordability ratios have
just been computed from those unrounded values. -/
def personalRowAt (income_2024_ntd house_2024_ntd : ℚ) (y : ℕ) : PersonalRow :=
let t := y - BASE_YEAR
let inc_nat := project income_2024_ntd TW_GDP_CAGR_BASE t
let inc_china := project income_2024_ntd TW_GDP_CAGR_CHINA t
let h_nat := project house_2024_ntd TW_HOUSE_CAGR_BASE t
let h_china := project house_2024_ntd TW_HOUSE_CAGR_CHINA t
{ year := y
  income_nat := inc_nat
  income_china := inc_china
  house_nat := h_nat
  house_china := h_china
  afford_nat := fdiv h_nat inc_nat
  afford_china := fdiv h_china inc_china }

/-- app.py lines 88–94: the in-place display rounding applied to the
dataframe before `build_personal` returns — currency columns to 0 decimals,
ratio columns to 2 decimals.  The same transformation is reapplied by the
top-level code at lines 235–243. -/
def roundRow (r : PersonalRow) : PersonalRow :=
{ r with
  income_nat := roundTo 0 r.income_nat
  income_china := roundTo 0 r.income_china
  house_nat := roundTo 0 r.house_nat
  house_china := roundTo 0 r.house_china
  afford_nat := roundFV 2 r.afford_nat
  afford_china := roundFV 2 r.afford_china }

/-- app.py lines 66–96: `build_personal(income_2024_ntd, house_2024_ntd)`.
Note the function body performs no validation of its inputs, and it rounds
the dataframe columns in place (lines 89–94) before returning. -/
def build_personal (income_2024_ntd house_2024_ntd : ℚ) : List PersonalRow :=
yearsList.map (fun y => roundRow (personalRowAt income_2024_ntd house_2024_ntd y))

/-- app.py lines 235–243: `personal_df_round = personal_df.copy()` followed by
rounding the four currency columns to 0 decimals and the two ratio columns to
2 decimals — exactly the `roundRow` transformation applied to a copy. -/
def personal_df_round (income_2024_ntd house_2024_ntd : ℚ) : List PersonalRow :=
(build_personal income_2024_ntd house_2024_ntd).map roundRow

/-- One record of the long-form data produced by the dataframe melt in
`line_chart` (app.py line 107): `(year-as-string, series name, value)`. -/
structure LongRec where
  time : String
  series : String
  value : ℚ
deriving DecidableEq, Repr

/-- The block of long-form records contributed by one value column: that
column's values paired with the time column, in row order. -/
def meltBlock (timeVals : List String) (c : String × List ℚ) : List LongRec :=
(timeVals.zip c.2).map (fun p => { time := p.1, series := c.1, value := p.2 })

/-- app.py line 107: `df2.melt(x_col, y_cols, ...)` — pandas melt stacks the
requested value columns one after another (column-major): all records of the
first value column, then all records of the second, and so on. -/
def melt (timeVals : List String) : List (String × List ℚ) → List LongRec
| [] => []
| c :: rest => meltBlock timeVals c ++ melt timeVals rest

/-- The lengths hypothesis for a well-formed wide table: every value column
has one entry per row of the time column. -/
def colsMatch (timeVals : List String) (valueCols : List (String × List ℚ)) : Prop :=
∀ c ∈ valueCols, c.2.length = timeVals.length

instance (t : List String) (v : List (String × List ℚ)) : Decidable (colsMatch t v) :=
List.decidableBAll _ v

/-- The layout asserted of the melt output: `k*m` records, laid out
column-major — the record for row `i` of requested column `j` sits at
position `j * k + i`. -/
def meltLayout (timeVals : List String) (valueCols : List (String × List ℚ)) : Prop :=
(melt timeVals valueCols).length = timeVals.length * valueCols.length ∧
∀ j c, valueCols[j]? = some c → ∀ i tm v, timeVals[i]? = some tm → c.2[i]? = some v →
  (melt timeVals valueCols)[j * timeVals.length + i]? = some { time := tm, series := c.1, value := v }

/-- Modelled from the spec: `toLongForm` in row-major order — for each table
row in order, one record per requested value column in the order given.
This is the order the spec asserts; it is compared against the source's
`melt` above. -/
def toLongFormRowMajorSpec (timeVals : List String) (valueCols : List (String × List ℚ)) : List LongRec :=
(List.range timeVals.length).map (fun i =>
    valueCols.map (fun c =>
      { time := timeVals.getD i "", series := c.1, value := c.2.getD i 0 })) |>.flatten

/-- A column key of a pandas dataframe indexing expression: either a proper
string label, or the literal `...` (Python `Ellipsis`) placeholder that
appears in app.py line 277. -/
inductive ColKey where
| label (s : String)
| ellipsisPlaceholder
deriving DecidableEq, Repr

/-- pandas `df[[keys]]` label selection: succeeds with the requested columns
when every key is a column of the dataframe, otherwise raises `KeyError`. -/
def selectColumns (available req : List ColKey) : Except String (List ColKey) :=
if req.all (fun k => available.contains k) then Except.ok req else Except.error "KeyError"

/-- The columns of `macro_df_round` (a copy of the dataframe built by
`build_macro`, app.py lines 49–61 and 230–233). -/
def macroColumns : List ColKey :=
[ColKey.label "年份",
 ColKey.label "自然_GDP_美元", ColKey.label "中國模式_GDP_美元",
 ColKey.label "自然_FDI_美元", ColKey.label "中國模式_FDI_美元",
 ColKey.label "自然_GDP_千萬美元", ColKey.label "中國模式_GDP_千萬美元",
 ColKey.label "自然_FDI_千萬美元", ColKey.label "中國模式_FDI_千萬美元"]

/-- The column list requested at app.py lines 271–275 for the displayed
macro table. -/
def macroShowRequest : List ColKey :=
[ColKey.label "年份",
 ColKey.label "自然_GDP_千萬美元", ColKey.label "中國模式_GDP_千萬美元",
 ColKey.label "自然_FDI_千萬美元", ColKey.label "中國模式_FDI_千萬美元"]

/-- app.py lines 271–275: the first assembly of `macro_df_show`. -/
def macro_df_show_step1 : Except String (List ColKey) :=
selectColumns macroColumns macroShowRequest

/-- app.py line 277: `macro_df_show = macro_df_round[[ ... ]]` — the second
assembly of `macro_df_show`, whose column list is the literal Python
`Ellipsis` placeholder. -/
def macro_df_show_final : Except String (List ColKey) :=
selectColumns macroColumns [ColKey.ellipsisPlaceholder]

/-- The affordability pair (natural, China-model) of row `k` of a personal
table, when that row exists. -/
def affordAt (rows : List PersonalRow) (k : ℕ) : Option (FloatVal × FloatVal) :=
rows[k]?.map (fun r => (r.afford_nat, r.afford_china))

/-- The natural-scenario income value of row `k` of a personal table. -/
def incomeNatAt (rows : List PersonalRow) (k : ℕ) : Option ℚ :=
rows[k]?.map (fun r => r.income_nat)

/-- The (natural income, natural housing) pair of row `k` of a personal table. -/
def incomeHouseAt (rows : List PersonalRow) (k : ℕ) : Option (ℚ × ℚ) :=
rows[k]?.map (fun r => (r.income_nat, r.house_nat))

/-- The natural-scenario affordability column of a personal table. -/
def affordNatCol (rows : List PersonalRow) : List FloatVal :=
rows.map (fun r => r.afford_nat)

/-- The China-model affordability column of a personal table. -/
def affordChinaCol (rows : List PersonalRow) : List FloatVal :=
rows.map (fun r => r.afford_china)

/-- The sequence `n ↦ project b r n` is strictly increasing. -/
def projSeqIncr (b r : ℚ) : Prop := ∀ n : ℕ, project b r n < project b r (n + 1)

/-- The sequence `n ↦ project b r n` is constant. -/
def projSeqConst (b r : ℚ) : Prop := ∀ n : ℕ, project b r n = project b r 0

/-- The sequence `n ↦ project b r n` is strictly decreasing. -/
def projSeqDecr (b r : ℚ) : Prop := ∀ n : ℕ, project b r (n + 1) < project b r n

end FutureTaiwan

namespace FutureTaiwan

theorem qfloor_eq_floor (x : ℚ) : qfloor x = ⌊x⌋ :=
Rat.floor_def.symm

theorem roundHalfEven_intCast (n : ℤ) : roundHalfEven (n : ℚ) = n := by
  have h : qfloor (n : ℚ) = n := by rw [qfloor_eq_floor]; exact Int.floor_intCast n
  unfold roundHalfEven
  rw [h, if_pos]
  rw [sub_self]
  norm_num

theorem roundTo_idem (d : ℕ) (x : ℚ) : roundTo d (roundTo d x) = roundTo d x := by
  have hne : ((10 : ℚ) ^ d) ≠ 0 := by positivity
  unfold roundTo
  rw [div_mul_cancel₀ _ hne, roundHalfEven_intCast]

theorem roundFV_idem (d : ℕ) (v : FloatVal) : roundFV d (roundFV d v) = roundFV d v := by
  cases v with
  | real q => simp [roundFV, roundTo_idem]
  | posInf => rfl
  | negInf => rfl
  | nan => rfl

theorem roundRow_idem (r : PersonalRow) : roundRow (roundRow r) = roundRow r := by
  simp [roundRow, roundTo_idem, roundFV_idem]

theorem one_add_gdp_base_pos : (0 : ℚ) < 1 + TW_GDP_CAGR_BASE := by
  norm_num [TW_GDP_CAGR_BASE]

theorem one_add_gdp_china_pos : (0 : ℚ) < 1 + TW_GDP_CAGR_CHINA := by
  norm_num [TW_GDP_CAGR_CHINA]

theorem one_add_house_base_pos : (0 : ℚ) < 1 + TW_HOUSE_CAGR_BASE := by
  norm_num [TW_HOUSE_CAGR_BASE]

theorem one_add_house_china_pos : (0 : ℚ) < 1 + TW_HOUSE_CAGR_CHINA := by
  norm_num [TW_HOUSE_CAGR_CHINA]

theorem project_pos {b r : ℚ} (n : ℕ) (hb : 0 < b) (hr : 0 < 1 + r) :
    0 < project b r n :=
mul_pos hb (pow_pos hr n)

theorem project_ne_zero {b r : ℚ} (n : ℕ) (hb : b ≠ 0) (hr : 0 < 1 + r) :
    project b r n ≠ 0 :=
mul_ne_zero hb (pow_ne_zero n (ne_of_gt hr))

theorem project_zero_base (r : ℚ) (n : ℕ) : project 0 r n = 0 := by
  simp [project]

theorem project_succ (b r : ℚ) (n : ℕ) :
    project b r (n + 1) = project b r n * (1 + r) := by
  unfold project
  rw [pow_succ]
  ring

theorem fdiv_of_ne {y : ℚ} (x : ℚ) (h : y ≠ 0) : fdiv x y = FloatVal.real (x / y) := by
  simp [fdiv, h]

theorem fdiv_pos_zero {x : ℚ} (h : 0 < x) : fdiv x 0 = FloatVal.posInf := by
  simp [fdiv, h]

theorem fdiv_zero_zero : fdiv 0 0 = FloatVal.nan := by
  simp [fdiv]

theorem build_personal_getElem (i h : ℚ) (k : ℕ) (hk : k < 6) :
    (build_personal i h)[k]? = some (roundRow (personalRowAt i h (BASE_YEAR + k))) := by
  interval_cases k <;> rfl

/-- C1: every run of the script, whatever the (in-domain) inputs, must
complete without an unrecoverable fault.  The projection builders are total,
but the final assembly of the displayed macro table (app.py line 277)
re-selects `macro_df_round` with the literal Python `...` placeholder as its
column list; pandas raises `KeyError` on that selection, so the table
assembly faults on every run.  The first (correct) selection at lines
271–275 succeeds; the overwrite at line 277 fails. -/
theorem pipeline_placeholder_select_raises :
    macro_df_show_step1 = Except.ok macroShowRequest ∧
    macro_df_show_final = Except.error "KeyError" := by
  constructor <;> rfl

/-- C9: both tables have exactly six rows, whose years are 2024–2029
inclusive, strictly ascending with step 1 — for every input to
`build_personal`, and for the input-free `build_macro`. -/
theorem tables_years_2024_2029 :
    List.map (fun r => r.year) build_macro = [2024, 2025, 2026, 2027, 2028, 2029] ∧
    ∀ income house : ℚ,
      List.map (fun r => r.year) (build_personal income house) =
        [2024, 2025, 2026, 2027, 2028, 2029] := by
  constructor
  · rfl
  · intro income house
    rfl

/-- C5 counterexample: the claim says `project` fails with a `DomainError`
for every rate ≤ -1; but the source's `project` (app.py lines 34–36) has no
validation at all — at rate -2 ≤ -1 it returns the formula value
`3 * (1 + (-2))^2 = 3` instead of failing. -/
theorem project_returns_value_at_rate_le_neg_one :
    (-2 : ℚ) ≤ -1 ∧ project 3 (-2) 2 = 3 := by
  constructor
  · norm_num
  · norm_num [project]

/-- C5 amended: `project` performs no domain check: it applies
`base * (1 + rate) ^ years` to every rate, including rates < -1, where the
result simply alternates in sign with the parity of `years` (positive for an
even horizon, negative for an odd one, for a positive base) instead of
failing with a `DomainError`. -/
theorem project_no_domain_check (b r : ℚ) (n : ℕ) (hb : 0 < b) (hr : r < -1) :
    0 < project b r n ↔ Even n := by
  unfold project
  have h1 : 1 + r < 0 := by linarith
  constructor
  · intro hpos
    rcases Nat.even_or_odd n with he | ho
    · exact he
    · exfalso
      have hneg : (1 + r) ^ n < 0 := ho.pow_neg h1
      have : b * (1 + r) ^ n < 0 := mul_neg_of_pos_of_neg hb hneg
      linarith
  · intro he
    exact mul_pos hb (he.pow_pos (ne_of_lt h1))

theorem project_no_domain_check_witness :
    (0 : ℚ) < 1 ∧ (-3 : ℚ) < -1 ∧ (0 < project 1 (-3) 2 ↔ Even 2) :=
⟨by norm_num, by norm_num, project_no_domain_check 1 (-3) 2 (by norm_num) (by norm_num)⟩

/-- C7 counterexample: the claim quantifies over every base ≥ 0, but at base
0 the projected sequence is constant for every rate (the degenerate
flat-zero projection), so "constant iff rate == 0" fails at base 0, rate 1. -/
theorem growth_classification_fails_at_zero_base :
    ¬ (projSeqConst 0 1 ↔ (1 : ℚ) = 0) := by
  intro hiff
  have hconst : projSeqConst 0 1 := by
    intro n
    simp [project]
  exact absurd (hiff.mp hconst) (by norm_num)

/-- C7 amended: for every base > 0 (rather than ≥ 0) and rate > -1,
`project base rate 0 = base`, and the sequence `n ↦ project base rate n` is
strictly increasing iff rate > 0, constant iff rate = 0, and strictly
decreasing iff -1 < rate < 0.  (At base = 0 the sequence is constant for
every rate, so the classification cannot hold there.) -/
theorem project_monotonicity_classification (b r : ℚ) (hb : 0 < b) (hr : -1 < r) :
    project b r 0 = b ∧ (projSeqIncr b r ↔ 0 < r) ∧
      (projSeqConst b r ↔ r = 0) ∧ (projSeqDecr b r ↔ r < 0) := by
  have h1r : (0 : ℚ) < 1 + r := by linarith
  have hpos : ∀ n : ℕ, 0 < project b r n := fun n => project_pos n hb h1r
  refine ⟨by unfold project; simp, ?_, ?_, ?_⟩
  · constructor
    · intro hI
      have h0 := hI 0
      rw [project_succ] at h0
      have := (lt_mul_iff_one_lt_right (hpos 0)).mp h0
      linarith
    · intro hrpos n
      rw [project_succ]
      exact (lt_mul_iff_one_lt_right (hpos n)).mpr (by linarith)
  · constructor
    · intro hC
      have h1 := hC 1
      rw [show (1 : ℕ) = 0 + 1 from rfl, project_succ] at h1
      have h2 : project b r 0 * (1 + r) = project b r 0 * 1 := by
        rw [mul_one]
        exact h1
      have := mul_left_cancel₀ (ne_of_gt (hpos 0)) h2
      linarith
    · intro hr0
      subst hr0
      intro n
      unfold project
      norm_num
  · constructor
    · intro hD
      have h0 := hD 0
      rw [project_succ] at h0
      have := (mul_lt_iff_lt_one_right (hpos 0)).mp h0
      linarith
    · intro hrneg n
      rw [project_succ]
      exact (mul_lt_iff_lt_one_right (hpos n)).mpr (by linarith)

theorem project_monotonicity_classification_witness :
    (0 : ℚ) < 2 ∧ (-1 : ℚ) < 1 ∧
      (project 2 1 0 = 2 ∧ (projSeqIncr 2 1 ↔ (0 : ℚ) < 1) ∧
        (projSeqConst 2 1 ↔ (1 : ℚ) = 0) ∧ (projSeqDecr 2 1 ↔ (1 : ℚ) < 0)) :=
⟨by norm_num, by norm_num,
  project_monotonicity_classification 2 1 (by norm_num) (by norm_num)⟩

/-- C2 counterexample: in the table actually returned by `build_personal`
(inputs: income 1,000,000, housing 10,000,000), the year-2025 affordability
entries are the ratios rounded to 2 decimals (the in-place rounding at
app.py lines 93–94 happens before the return), not the exact unrounded
ratios `housing / income`. -/
theorem afford_returned_ne_unrounded_ratio :
    affordAt (build_personal 1000000 10000000) 1 ≠
      some (FloatVal.real (project 10000000 TW_HOUSE_CAGR_BASE 1 / project 1000000 TW_GDP_CAGR_BASE 1),
            FloatVal.real (project 10000000 TW_HOUSE_CAGR_CHINA 1 / project 1000000 TW_GDP_CAGR_CHINA 1)) := by
  rw [affordAt, build_personal_getElem 1000000 10000000 1 (by norm_num)]
  have e : BASE_YEAR + 1 - BASE_YEAR = 1 := Nat.add_sub_cancel_left BASE_YEAR 1
  simp only [Option.map_some', roundRow, personalRowAt, e]
  rw [fdiv_of_ne _ (project_ne_zero _ (by norm_num) one_add_gdp_base_pos),
    fdiv_of_ne _ (project_ne_zero _ (by norm_num) one_add_gdp_china_pos)]
  simp only [roundFV]
  intro hand
  simp only [Option.some.injEq, Prod.mk.injEq, FloatVal.real.injEq] at hand
  have h1 := hand.1
  norm_num [roundTo, roundHalfEven, qfloor, project,
    TW_HOUSE_CAGR_BASE, TW_GDP_CAGR_BASE] at h1

/-- C2 amended: for every income base ≠ 0 and every housing base, each
affordability entry of the returned table equals the unrounded ratio
`housing / income` of the unrounded projections, rounded to 2 decimals for
display.  The ratio is computed from the unrounded projected values (the
division at app.py lines 85–86 precedes the rounding at lines 89–94); only
the final display rounding separates the returned entry from the exact
ratio. -/
theorem afford_eq_round2_of_unrounded_ratio (i h : ℚ) (k : ℕ) (hi : i ≠ 0) (hk : k < 6) :
    affordAt (build_personal i h) k =
      some (FloatVal.real (roundTo 2 (project h TW_HOUSE_CAGR_BASE k / project i TW_GDP_CAGR_BASE k)),
            FloatVal.real (roundTo 2 (project h TW_HOUSE_CAGR_CHINA k / project i TW_GDP_CAGR_CHINA k))) := by
  rw [affordAt, build_personal_getElem i h k hk]
  have e : BASE_YEAR + k - BASE_YEAR = k := Nat.add_sub_cancel_left BASE_YEAR k
  simp only [Option.map_some', roundRow, personalRowAt, e]
  rw [fdiv_of_ne _ (project_ne_zero _ hi one_add_gdp_base_pos),
    fdiv_of_ne _ (project_ne_zero _ hi one_add_gdp_china_pos)]
  simp [roundFV]

theorem afford_eq_round2_witness :
    (1000000 : ℚ) ≠ 0 ∧ (1 : ℕ) < 6 ∧
      affordAt (build_personal 1000000 10000000) 1 =
        some (FloatVal.real (roundTo 2 (project 10000000 TW_HOUSE_CAGR_BASE 1 / project 1000000 TW_GDP_CAGR_BASE 1)),
              FloatVal.real (roundTo 2 (project 10000000 TW_HOUSE_CAGR_CHINA 1 / project 1000000 TW_GDP_CAGR_CHINA 1))) :=
⟨by norm_num, by norm_num,
  afford_eq_round2_of_unrounded_ratio 1000000 10000000 1 (by norm_num) (by norm_num)⟩

/-- C3 counterexample: the claim says the table returned by `build_personal`
still contains the unrounded values; but at inputs (1,000,000, 10,000,000)
the year-2025 natural-scenario income entry of the returned table is the
rounded value, not the unrounded projection `1,000,000 * (1 + gdpRate)`. -/
theorem returned_income_is_rounded :
    incomeNatAt (build_personal 1000000 10000000) 1 ≠
      some (project 1000000 TW_GDP_CAGR_BASE 1) := by
  rw [incomeNatAt, build_personal_getElem 1000000 10000000 1 (by norm_num)]
  simp only [Option.map_some', roundRow, personalRowAt, Option.some.injEq]
  intro heq
  norm_num [roundTo, roundHalfEven, qfloor, project, TW_GDP_CAGR_BASE] at heq

/-- C3 amended: `build_personal` applies the display rounding in place
(app.py lines 89–94) before returning, so the returned table already holds
the rounded values (affordability having been computed from the unrounded
values beforehand); consequently the separate presentation copy made by the
top-level code (lines 235–243) is identical to the returned table — the
re-rounding is a no-op. -/
theorem display_copy_equals_returned_table (income house : ℚ) :
    personal_df_round income house = build_personal income house := by
  unfold personal_df_round build_personal
  rw [List.map_map]
  exact List.map_congr_left (fun y _ => roundRow_idem _)

/-- C4 counterexample: the claim says `build_personal` rejects negative
bases with an `InvalidInputError`; but the source function (app.py lines
66–96) has no validation at all — at income = housing = -1 it returns a
normal six-row table whose base-year natural income is the computed value
-1, rather than failing. -/
theorem negative_input_produces_table :
    (build_personal (-1) (-1)).length = 6 ∧
      incomeNatAt (build_personal (-1) (-1)) 0 = some (-1) := by
  refine ⟨rfl, ?_⟩
  rw [incomeNatAt, build_personal_getElem (-1) (-1) 0 (by norm_num)]
  simp only [Option.map_some', roundRow, personalRowAt, Option.some.injEq]
  norm_num [project, roundTo, roundHalfEven, qfloor]

/-- C4 amended: `build_personal` performs no input validation: even when the
income base or the housing base is negative it computes and returns the full
six-row table, whose base-year row carries the (rounded) inputs themselves
— there is no `InvalidInputError` anywhere in the code. -/
theorem no_input_validation (i h : ℚ) (hneg : i < 0 ∨ h < 0) :
    (build_personal i h).length = 6 ∧
      incomeHouseAt (build_personal i h) 0 = some (roundTo 0 i, roundTo 0 h) := by
  refine ⟨rfl, ?_⟩
  rw [incomeHouseAt, build_personal_getElem i h 0 (by norm_num)]
  simp only [Option.map_some', roundRow, personalRowAt, Option.some.injEq, Prod.mk.injEq]
  constructor <;> · congr 1; simp [project]

theorem no_input_validation_witness :
    ((-1 : ℚ) < 0 ∨ (-1 : ℚ) < 0) ∧
      ((build_personal (-1) (-1)).length = 6 ∧
        incomeHouseAt (build_personal (-1) (-1)) 0 = some (roundTo 0 (-1), roundTo 0 (-1))) :=
⟨Or.inl (by norm_num), no_input_validation (-1) (-1) (Or.inl (by norm_num))⟩

/-- C6: with income base 0 (and any housing base ≥ 0), `build_personal`
returns normally (no exception) and every affordability entry, in both
scenarios, is the undefined marker: +infinity when the housing base is
positive (so the projected housing value is positive), NaN when the housing
base is 0 — and neither marker equals a genuine zero ratio. -/
theorem zero_income_afford_undefined (h : ℚ) (k : ℕ) (hh : 0 ≤ h) (hk : k < 6) :
    affordAt (build_personal 0 h) k =
      some (if 0 < h then (FloatVal.posInf, FloatVal.posInf)
            else (FloatVal.nan, FloatVal.nan)) ∧
      FloatVal.posInf ≠ FloatVal.real 0 ∧ FloatVal.nan ≠ FloatVal.real 0 := by
  refine ⟨?_, by simp, by simp⟩
  rw [affordAt, build_personal_getElem 0 h k hk]
  simp only [Option.map_some', roundRow, personalRowAt, project_zero_base, Option.some.injEq]
  by_cases hpos : 0 < h
  · rw [if_pos hpos]
    rw [fdiv_pos_zero (project_pos _ hpos one_add_house_base_pos),
      fdiv_pos_zero (project_pos _ hpos one_add_house_china_pos)]
    simp [roundFV]
  · have h0 : h = 0 := le_antisymm (not_lt.mp hpos) hh
    subst h0
    rw [if_neg hpos]
    simp only [project_zero_base, fdiv_zero_zero]
    simp [roundFV]

theorem zero_income_afford_undefined_witness :
    (0 : ℚ) ≤ 10000000 ∧ (0 : ℕ) < 6 ∧
      (affordAt (build_personal 0 10000000) 0 =
          some (if 0 < (10000000 : ℚ) then (FloatVal.posInf, FloatVal.posInf)
                else (FloatVal.nan, FloatVal.nan)) ∧
        FloatVal.posInf ≠ FloatVal.real 0 ∧ FloatVal.nan ≠ FloatVal.real 0) :=
⟨by norm_num, by norm_num,
  zero_income_afford_undefined 10000000 0 (by norm_num) (by norm_num)⟩

theorem afford_nat_raw (i h : ℚ) (hi : i ≠ 0) (y : ℕ) :
    (personalRowAt i h y).afford_nat =
      FloatVal.real ((h / i) *
        ((1 + TW_HOUSE_CAGR_BASE) / (1 + TW_GDP_CAGR_BASE)) ^ (y - BASE_YEAR)) := by
  simp only [personalRowAt]
  rw [fdiv_of_ne _ (project_ne_zero _ hi one_add_gdp_base_pos)]
  refine congrArg FloatVal.real ?_
  unfold project
  rw [mul_div_mul_comm, div_pow]

theorem afford_china_raw (i h : ℚ) (hi : i ≠ 0) (y : ℕ) :
    (personalRowAt i h y).afford_china =
      FloatVal.real ((h / i) *
        ((1 + TW_HOUSE_CAGR_CHINA) / (1 + TW_GDP_CAGR_CHINA)) ^ (y - BASE_YEAR)) := by
  simp only [personalRowAt]
  rw [fdiv_of_ne _ (project_ne_zero _ hi one_add_gdp_china_pos)]
  refine congrArg FloatVal.real ?_
  unfold project
  rw [mul_div_mul_comm, div_pow]

/-- C10: the (unrounded) affordability values depend only on the ratio of
the two inputs: rescaling both bases by any c > 0 leaves every
affordability value unchanged, and each equals
`(h / i) * ((1 + housingRate) / (1 + gdpRate)) ^ t` for its scenario; the
affordability columns of the returned (rounded) tables coincide as well. -/
theorem afford_scale_invariant (i h c : ℚ) (y : ℕ) (hi : 0 < i) (hh : 0 ≤ h) (hc : 0 < c) :
    (personalRowAt (c * i) (c * h) y).afford_nat = (personalRowAt i h y).afford_nat ∧
    (personalRowAt (c * i) (c * h) y).afford_china = (personalRowAt i h y).afford_china ∧
    (personalRowAt i h y).afford_nat =
      FloatVal.real ((h / i) *
        ((1 + TW_HOUSE_CAGR_BASE) / (1 + TW_GDP_CAGR_BASE)) ^ (y - BASE_YEAR)) ∧
    (personalRowAt i h y).afford_china =
      FloatVal.real ((h / i) *
        ((1 + TW_HOUSE_CAGR_CHINA) / (1 + TW_GDP_CAGR_CHINA)) ^ (y - BASE_YEAR)) ∧
    affordNatCol (build_personal (c * i) (c * h)) = affordNatCol (build_personal i h) ∧
    affordChinaCol (build_personal (c * i) (c * h)) = affordChinaCol (build_personal i h) := by
  have hc' : c ≠ 0 := ne_of_gt hc
  have hi' : i ≠ 0 := ne_of_gt hi
  have hci : c * i ≠ 0 := mul_ne_zero hc' hi'
  refine ⟨?_, ?_, afford_nat_raw i h hi' y, afford_china_raw i h hi' y, ?_, ?_⟩
  · rw [afford_nat_raw _ _ hci y, afford_nat_raw i h hi' y, mul_div_mul_left h i hc']
  · rw [afford_china_raw _ _ hci y, afford_china_raw i h hi' y, mul_div_mul_left h i hc']
  · unfold affordNatCol build_personal
    rw [List.map_map, List.map_map]
    refine List.map_congr_left (fun z _ => ?_)
    simp only [Function.comp_apply, roundRow]
    rw [afford_nat_raw _ _ hci z, afford_nat_raw i h hi' z, mul_div_mul_left h i hc']
  · unfold affordChinaCol build_personal
    rw [List.map_map, List.map_map]
    refine List.map_congr_left (fun z _ => ?_)
    simp only [Function.comp_apply, roundRow]
    rw [afford_china_raw _ _ hci z, afford_china_raw i h hi' z, mul_div_mul_left h i hc']

theorem afford_scale_invariant_witness :
    (0 : ℚ) < 1 ∧ (0 : ℚ) ≤ 3 ∧ (0 : ℚ) < 2 ∧
      ((personalRowAt (2 * 1) (2 * 3) 2025).afford_nat = (personalRowAt 1 3 2025).afford_nat ∧
        (personalRowAt (2 * 1) (2 * 3) 2025).afford_china = (personalRowAt 1 3 2025).afford_china ∧
        (personalRowAt 1 3 2025).afford_nat =
          FloatVal.real ((3 / 1) *
            ((1 + TW_HOUSE_CAGR_BASE) / (1 + TW_GDP_CAGR_BASE)) ^ (2025 - BASE_YEAR)) ∧
        (personalRowAt 1 3 2025).afford_china =
          FloatVal.real ((3 / 1) *
            ((1 + TW_HOUSE_CAGR_CHINA) / (1 + TW_GDP_CAGR_CHINA)) ^ (2025 - BASE_YEAR)) ∧
        affordNatCol (build_personal (2 * 1) (2 * 3)) = affordNatCol (build_personal 1 3) ∧
        affordChinaCol (build_personal (2 * 1) (2 * 3)) = affordChinaCol (build_personal 1 3)) :=
⟨by norm_num, by norm_num, by norm_num,
  afford_scale_invariant 1 3 2 2025 (by norm_num) (by norm_num) (by norm_num)⟩

theorem meltBlock_length (t : List String) (c : String × List ℚ) (hc : c.2.length = t.length) :
    (meltBlock t c).length = t.length := by
  simp [meltBlock, hc]

theorem meltBlock_getElem_aux (name : String) :
    ∀ (t : List String) (vals : List ℚ) (i : ℕ) (tm : String) (v : ℚ),
      t[i]? = some tm → vals[i]? = some v →
      (meltBlock t (name, vals))[i]? = some { time := tm, series := name, value := v }
| [], _, i, tm, v, ht, _ => by simp at ht
| _ :: _, [], i, tm, v, _, hv => by simp at hv
| hd :: tl, v0 :: vtl, 0, tm, v, ht, hv => by
    simp only [List.getElem?_cons_zero, Option.some.injEq] at ht hv
    subst ht
    subst hv
    simp [meltBlock, List.zip_cons_cons]
| hd :: tl, v0 :: vtl, i' + 1, tm, v, ht, hv => by
    simp only [List.getElem?_cons_succ] at ht hv
    have hstep : meltBlock (hd :: tl) (name, v0 :: vtl) =
        { time := hd, series := name, value := v0 } :: meltBlock tl (name, vtl) := by
      simp [meltBlock, List.zip_cons_cons]
    rw [hstep, List.getElem?_cons_succ]
    exact meltBlock_getElem_aux name tl vtl i' tm v ht hv

theorem meltBlock_getElem (t : List String) (c : String × List ℚ) (i : ℕ) (tm : String) (v : ℚ)
    (ht : t[i]? = some tm) (hv : c.2[i]? = some v) :
    (meltBlock t c)[i]? = some { time := tm, series := c.1, value := v } := by
  obtain ⟨name, vals⟩ := c
  exact meltBlock_getElem_aux name t vals i tm v ht hv

/-- C8 counterexample: pandas `melt` (app.py line 107) emits records
column-major (all records of the first requested column first), not
row-major as the claim states: on a 2-row table with value columns a, b the
two orders differ. -/
theorem melt_not_row_major :
    melt ["2024", "2025"] [("a", [1, 2]), ("b", [3, 4])] ≠
      toLongFormRowMajorSpec ["2024", "2025"] [("a", [1, 2]), ("b", [3, 4])] := by
  decide

/-- C8 amended: on a table with k rows and m requested value columns the
melt produces exactly k*m records, ordered column-major and row-order
preserving within each column: the record for row i of requested column j
sits at position `j * k + i`. -/
theorem melt_column_major_layout (t : List String) (vcs : List (String × List ℚ))
    (hlen : colsMatch t vcs) : meltLayout t vcs := by
  induction vcs with
  | nil =>
    constructor
    · simp [melt]
    · intro j d hd
      simp at hd
  | cons c rest ih =>
    have hc : c.2.length = t.length := hlen c (List.mem_cons_self c rest)
    have hrest : colsMatch t rest := fun d hd => hlen d (List.mem_cons_of_mem c hd)
    obtain ⟨ihlen, ihget⟩ := ih hrest
    have hblock : (meltBlock t c).length = t.length := meltBlock_length t c hc
    constructor
    · simp only [melt, List.length_append, hblock, ihlen, List.length_cons]
      ring
    · intro j d hd i tm v ht hv
      have hit : i < t.length := by
        by_contra hge
        rw [List.getElem?_eq_none (Nat.le_of_not_lt hge)] at ht
        exact Option.noConfusion ht
      cases j with
      | zero =>
        simp only [List.getElem?_cons_zero, Option.some.injEq] at hd
        subst hd
        simp only [melt, Nat.zero_mul, Nat.zero_add]
        rw [List.getElem?_append, if_pos (by rw [hblock]; exact hit)]
        exact meltBlock_getElem t c i tm v ht hv
      | succ j' =>
        simp only [List.getElem?_cons_succ] at hd
        have harith : (j' + 1) * t.length + i = (meltBlock t c).length + (j' * t.length + i) := by
          rw [hblock]
          ring
        simp only [melt]
        rw [harith, List.getElem?_append_right (Nat.le_add_right _ _), Nat.add_sub_cancel_left]
        exact ihget j' d hd i tm v ht hv

theorem melt_layout_witness :
    colsMatch ["x", "y"] [("a", [1, 2]), ("b", [3, 4]), ("c", [5, 6])] ∧
      meltLayout ["x", "y"] [("a", [1, 2]), ("b", [3, 4]), ("c", [5, 6])] :=
⟨by decide, melt_column_major_layout _ _ (by decide)⟩

end FutureTaiwan
